import Mathlib

/-!
Verification of the azptu CLI (src/azptu.py) against its specification.

The development embeds the three logic-bearing parts of the program:
* the PTU capacity validator `validate_ptu_capacity` (azptu.py lines 213-281),
* the TTL-expiring session store `StateManager` (azptu.py lines 86-207),
* the deployment orchestrator `DeploymentManager` operations
  (`create_ptu_deployment`, `update_ptu_capacity`, `get_deployment_info`,
  azptu.py lines 287-574).

The PTU requirement table and the localized message catalog live in the
program's external `config.json`, so the embedding is parameterized by an
abstract requirement table (`PtuTable`) and represents a rendered message by
the message key together with the parameters the code passes to the
formatter (`ErrMsg`).  Remote Azure calls are modelled by an oracle
`RemoteCall → RemoteOutcome`; the filesystem backing the session store is
modelled by `FileContent`; wall-clock readings are explicit parameters.
Python runtime errors that the validator can raise (comparing an `int`
against `None`, modulo by zero) are modelled by the `PyError` side of an
`Except`.
-/

namespace Azptu

/-- A raisable Python runtime error inside `validate_ptu_capacity`:
`capacity < None` raises `TypeError`; `x % 0` raises `ZeroDivisionError`. -/
inductive PyError
  | typeError
  | zeroDivisionError
deriving DecidableEq, Repr

deriving instance DecidableEq for Except

/-- One entry of the `ptu_requirements` table from config.json.
`regional_min` is null for models with no regional tier
(the code also reads `global_min`, which the same null check guards only
for the regional branch, hence `Option` on both). -/
structure ModelRequirement where
  regional_min : Option Int
  regional_increment : Int
  global_min : Option Int
  global_increment : Int
deriving DecidableEq, Repr

/-- The `ptu_requirements` dictionary: model key to requirement. -/
abbrev PtuTable := List (String × ModelRequirement)

/-- Python dict membership / indexing on the requirement table. -/
def findReq (t : PtuTable) (k : String) : Option ModelRequirement :=
  List.lookup k t

/-- Python `str.lower()` (ASCII range, as used by the model keys). -/
def pyLower (s : String) : String := ⟨s.data.map Char.toLower⟩

/-- Python `str.replace(a, b)` for single-character arguments. -/
def replaceChar (a b : Char) (s : String) : String :=
  ⟨s.data.map (fun c => if c = a then b else c)⟩

/-- The five fallback name variants tried by `validate_ptu_capacity`
(azptu.py lines 233-239), in order. -/
def altKeys (model_name : String) : List String :=
  [pyLower model_name,
   replaceChar '_' '-' model_name,
   replaceChar '-' '_' model_name,
   replaceChar '_' '-' (pyLower model_name),
   replaceChar '-' '_' (pyLower model_name)]

/-- Key resolution of azptu.py lines 228-250: exact key first, then the
first matching variant; `none` when the model is unknown to the table. -/
def resolveKey (t : PtuTable) (model_name : String) : Option String :=
  if (findReq t model_name).isSome then some model_name
  else (altKeys model_name).find? (fun k => (findReq t k).isSome)

/-- The requirement selected for a model name, through `resolveKey`. -/
def resolveReq (t : PtuTable) (model_name : String) : Option ModelRequirement :=
  (resolveKey t model_name).bind (findReq t)

/-- Tier bucketing of azptu.py lines 255 and 266:
`deployment_type.lower() in ['global', 'data-zone', 'datazone']`. -/
def isGlobalBucket (deployment_type : String) : Bool :=
  pyLower deployment_type == "global" ||
  pyLower deployment_type == "data-zone" ||
  pyLower deployment_type == "datazone"

/-- The minimum selected for the bucket (azptu.py lines 256/260). -/
def bucketMin (requirements : ModelRequirement) (gb : Bool) : Option Int :=
  if gb then requirements.global_min else requirements.regional_min

/-- The increment selected for the bucket (azptu.py lines 257/261). -/
def bucketIncrement (requirements : ModelRequirement) (gb : Bool) : Int :=
  if gb then requirements.global_increment else requirements.regional_increment

/-- The `type_name` message parameter (azptu.py lines 258/262). -/
def bucketTypeName (gb : Bool) : String :=
  if gb then "Global/Data Zone" else "Regional"

/-- A rendered validation error message: the message key of the
`errors` catalog entry plus the parameters the code passes to
`get_message` (azptu.py lines 267, 271-273, 277-279). -/
inductive ErrMsg
  | notSupportRegional (model_name : String)
  | minCapacityError (model_name type_name : String) (min_capacity capacity : Int)
  | incrementError (model_name type_name : String) (increment capacity : Int)
deriving DecidableEq, Repr

/-- The `(is_valid, error_message)` pair returned by the validator;
the empty message of the valid case is `none`. -/
structure VResult where
  ok : Bool
  message : Option ErrMsg
deriving DecidableEq, Repr

/-- azptu.py lines 252-281: the part of `validate_ptu_capacity` that runs
once a requirement entry has been matched. -/
def validateMatched (requirements : ModelRequirement) (model_name : String)
    (capacity : Int) (deployment_type : String) : Except PyError VResult :=
  match bucketMin requirements (isGlobalBucket deployment_type) with
  | none =>
    if isGlobalBucket deployment_type then
      .error .typeError
    else
      .ok ⟨false, some (.notSupportRegional model_name)⟩
  | some m =>
    if capacity < m then
      .ok ⟨false, some (.minCapacityError model_name
        (bucketTypeName (isGlobalBucket deployment_type)) m capacity)⟩
    else if bucketIncrement requirements (isGlobalBucket deployment_type) = 0 then
      .error .zeroDivisionError
    else if (capacity - m) % bucketIncrement requirements (isGlobalBucket deployment_type) ≠ 0 then
      .ok ⟨false, some (.incrementError model_name
        (bucketTypeName (isGlobalBucket deployment_type))
        (bucketIncrement requirements (isGlobalBucket deployment_type)) capacity)⟩
    else
      .ok ⟨true, none⟩

/-- azptu.py lines 213-281: `validate_ptu_capacity(model_name, capacity,
deployment_type)`. Unknown models pass through as `(True, "")`. -/
def validate_ptu_capacity (t : PtuTable) (model_name : String) (capacity : Int)
    (deployment_type : String) : Except PyError VResult :=
  match resolveReq t model_name with
  | none => .ok ⟨true, none⟩
  | some requirements => validateMatched requirements model_name capacity deployment_type

/-- A concrete requirement table used to exercise the theorems; the shape
matches the spec's concrete scenario (`gpt-4o`, regional 15 min / 5 step). -/
def sampleTable : PtuTable :=
  [("gpt-4o", { regional_min := some 15, regional_increment := 5,
                global_min := some 15, global_increment := 5 })]

theorem resolveReq_of_findReq {t : PtuTable} {M : String} {req : ModelRequirement}
    (h : findReq t M = some req) : resolveReq t M = some req := by
  unfold resolveReq resolveKey
  rw [h]
  simp [h]

theorem isGlobalBucket_regional : isGlobalBucket "regional" = false := by decide

theorem validate_eq_matched {t : PtuTable} {M : String} {req : ModelRequirement}
    (h : resolveReq t M = some req) (c : Int) (ty : String) :
    validate_ptu_capacity t M c ty = validateMatched req M c ty := by
  unfold validate_ptu_capacity
  rw [h]

theorem validate_eq_pass {t : PtuTable} {M : String}
    (h : resolveReq t M = none) (c : Int) (ty : String) :
    validate_ptu_capacity t M c ty = .ok ⟨true, none⟩ := by
  unfold validate_ptu_capacity
  rw [h]

theorem validateMatched_eq_some {req : ModelRequirement} {ty : String} {m : Int}
    (hm : bucketMin req (isGlobalBucket ty) = some m) (mn : String) (c : Int) :
    validateMatched req mn c ty =
      (if c < m then
        .ok ⟨false, some (.minCapacityError mn (bucketTypeName (isGlobalBucket ty)) m c)⟩
      else if bucketIncrement req (isGlobalBucket ty) = 0 then
        .error .zeroDivisionError
      else if (c - m) % bucketIncrement req (isGlobalBucket ty) ≠ 0 then
        .ok ⟨false, some (.incrementError mn (bucketTypeName (isGlobalBucket ty))
          (bucketIncrement req (isGlobalBucket ty)) c)⟩
      else .ok ⟨true, none⟩) := by
  unfold validateMatched
  rw [hm]

theorem validateMatched_eq_none {req : ModelRequirement} {ty : String}
    (hm : bucketMin req (isGlobalBucket ty) = none) (mn : String) (c : Int) :
    validateMatched req mn c ty =
      (if isGlobalBucket ty then .error .typeError
       else .ok ⟨false, some (.notSupportRegional mn)⟩) := by
  unfold validateMatched
  rw [hm]

/-- C1: for every model `M` present in the requirement table whose regional
minimum is a non-null `m` and whose regional increment is a (positive) `k`,
`validate(M, m, Regional)` and `validate(M, m+k, Regional)` are valid,
`validate(M, m-1, Regional)` is invalid with the minimum-capacity message,
and when `k > 1`, `validate(M, m+1, Regional)` is invalid with the
increment-mismatch message. -/
theorem validate_regional_min_increment (t : PtuTable) (M : String)
    (req : ModelRequirement) (m k : Int)
    (hfind : findReq t M = some req)
    (hmin : req.regional_min = some m)
    (hinc : req.regional_increment = k)
    (hk : 0 < k) :
    validate_ptu_capacity t M m "regional" = .ok ⟨true, none⟩ ∧
    validate_ptu_capacity t M (m + k) "regional" = .ok ⟨true, none⟩ ∧
    validate_ptu_capacity t M (m - 1) "regional" =
      .ok ⟨false, some (.minCapacityError M "Regional" m (m - 1))⟩ ∧
    (1 < k → validate_ptu_capacity t M (m + 1) "regional" =
      .ok ⟨false, some (.incrementError M "Regional" k (m + 1))⟩) := by
  have hres := resolveReq_of_findReq hfind
  have hbm : bucketMin req (isGlobalBucket "regional") = some m := by
    simp [bucketMin, isGlobalBucket_regional, hmin]
  have hbi : bucketIncrement req (isGlobalBucket "regional") = k := by
    simp [bucketIncrement, isGlobalBucket_regional, hinc]
  have htn : bucketTypeName (isGlobalBucket "regional") = "Regional" := by
    simp [bucketTypeName, isGlobalBucket_regional]
  refine ⟨?_, ?_, ?_, ?_⟩
  · rw [validate_eq_matched hres, validateMatched_eq_some hbm, hbi]
    rw [if_neg (lt_irrefl m), if_neg (by omega), if_neg (by simp)]
  · rw [validate_eq_matched hres, validateMatched_eq_some hbm, hbi]
    have hmod : ¬ (m + k - m) % k ≠ 0 := by
      have h1 : m + k - m = k := by omega
      rw [h1, Int.emod_self]
      norm_num
    rw [if_neg (by omega), if_neg (by omega), if_neg hmod]
  · rw [validate_eq_matched hres, validateMatched_eq_some hbm, htn]
    rw [if_pos (by omega)]
  · intro h1k
    rw [validate_eq_matched hres, validateMatched_eq_some hbm, hbi, htn]
    have hmod : (m + 1 - m) % k ≠ 0 := by
      have h1 : m + 1 - m = 1 := by omega
      have h2 : (1 : Int) % k = 1 := Int.emod_eq_of_lt (by norm_num) (by omega)
      rw [h1, h2]
      norm_num
    rw [if_neg (by omega), if_neg (by omega), if_pos hmod]

/-- C1 witness: the theorem instantiated at the sample table's `gpt-4o`
entry (regional minimum 15, increment 5). -/
theorem validate_regional_min_increment_witness :
    validate_ptu_capacity sampleTable "gpt-4o" 15 "regional" = .ok ⟨true, none⟩ ∧
    validate_ptu_capacity sampleTable "gpt-4o" (15 + 5) "regional" = .ok ⟨true, none⟩ ∧
    validate_ptu_capacity sampleTable "gpt-4o" (15 - 1) "regional" =
      .ok ⟨false, some (.minCapacityError "gpt-4o" "Regional" 15 (15 - 1))⟩ ∧
    (1 < (5 : Int) → validate_ptu_capacity sampleTable "gpt-4o" (15 + 1) "regional" =
      .ok ⟨false, some (.incrementError "gpt-4o" "Regional" 5 (15 + 1))⟩) :=
  validate_regional_min_increment sampleTable "gpt-4o"
    { regional_min := some 15, regional_increment := 5,
      global_min := some 15, global_increment := 5 }
    15 5 (by decide) rfl rfl (by decide)

/-- Erase the echoed caller-supplied model name from a rendered message,
leaving the message kind and the remaining parameters. -/
def scrubName : ErrMsg → ErrMsg
  | .notSupportRegional _ => .notSupportRegional ""
  | .minCapacityError _ tn mc c => .minCapacityError "" tn mc c
  | .incrementError _ tn inc c => .incrementError "" tn inc c

/-- Erase the echoed model name from a full validator outcome. -/
def scrubResult : Except PyError VResult → Except PyError VResult
  | .error e => .error e
  | .ok v => .ok ⟨v.ok, v.message.map scrubName⟩

theorem scrub_validateMatched (req : ModelRequirement) (m1 m2 : String)
    (c : Int) (ty : String) :
    scrubResult (validateMatched req m1 c ty) = scrubResult (validateMatched req m2 c ty) := by
  cases hbm : bucketMin req (isGlobalBucket ty) with
  | none =>
    rw [validateMatched_eq_none hbm m1 c, validateMatched_eq_none hbm m2 c]
    split_ifs <;> rfl
  | some m =>
    rw [validateMatched_eq_some hbm m1 c, validateMatched_eq_some hbm m2 c]
    split_ifs <;> rfl

/-- C5 (amended): when two model names resolve to the same canonical
requirement-table key, the two validator outcomes agree up to the echoed
original model name in the error message: verdict and error kind are
always equal, and the full `(ok, message)` results are equal after the
echoed name is erased. -/
theorem validate_name_normalization (t : PtuTable) (m1 m2 key : String)
    (c : Int) (ty : String)
    (h1 : resolveKey t m1 = some key) (h2 : resolveKey t m2 = some key) :
    scrubResult (validate_ptu_capacity t m1 c ty) =
      scrubResult (validate_ptu_capacity t m2 c ty) := by
  have e1 : resolveReq t m1 = (findReq t key) := by
    unfold resolveReq
    rw [h1]
    rfl
  have e2 : resolveReq t m2 = (findReq t key) := by
    unfold resolveReq
    rw [h2]
    rfl
  cases hk : findReq t key with
  | none =>
    rw [validate_eq_pass (e1.trans hk), validate_eq_pass (e2.trans hk)]
  | some req =>
    rw [validate_eq_matched (e1.trans hk), validate_eq_matched (e2.trans hk)]
    exact scrub_validateMatched req m1 m2 c ty

/-- C5 counterexample: `"GPT-4O"` and `"gpt_4o"` both resolve to the
canonical key `"gpt-4o"`, yet the full `(ok, message)` results differ for
capacity 10, because the rendered error message embeds the caller's
original spelling of the model name (azptu.py line 271 passes
`model_name=model_name`, the unnormalized argument). -/
theorem validate_name_normalization_cex :
    resolveKey sampleTable "GPT-4O" = some "gpt-4o" ∧
    resolveKey sampleTable "gpt_4o" = some "gpt-4o" ∧
    validate_ptu_capacity sampleTable "GPT-4O" 10 "regional" =
      .ok ⟨false, some (.minCapacityError "GPT-4O" "Regional" 15 10)⟩ ∧
    validate_ptu_capacity sampleTable "gpt_4o" 10 "regional" =
      .ok ⟨false, some (.minCapacityError "gpt_4o" "Regional" 15 10)⟩ ∧
    validate_ptu_capacity sampleTable "GPT-4O" 10 "regional" ≠
      validate_ptu_capacity sampleTable "gpt_4o" 10 "regional" := by
  refine ⟨by decide, by decide, by decide, by decide, by decide⟩

/-- C5 witness: the amended theorem applied at the counterexample input;
after erasing the echoed name the two outcomes coincide. -/
theorem validate_name_normalization_witness :
    scrubResult (validate_ptu_capacity sampleTable "GPT-4O" 10 "regional") =
      scrubResult (validate_ptu_capacity sampleTable "gpt_4o" 10 "regional") :=
  validate_name_normalization sampleTable "GPT-4O" "gpt_4o" "gpt-4o" 10 "regional"
    (by decide) (by decide)

/-- C6: a model name that matches no requirement-table key, neither
exactly nor through any of the five normalization variants, makes
`validate_ptu_capacity` return `(True, "")` for every capacity and every
deployment type. -/
theorem validate_unknown_model_pass (t : PtuTable) (mn : String)
    (hexact : findReq t mn = none)
    (halt : ∀ k ∈ altKeys mn, findReq t k = none)
    (c : Int) (ty : String) :
    validate_ptu_capacity t mn c ty = .ok ⟨true, none⟩ := by
  have hkey : resolveKey t mn = none := by
    unfold resolveKey
    rw [hexact]
    simp only [Option.isSome_none, Bool.false_eq_true, if_false]
    rw [List.find?_eq_none]
    intro k hk
    simp [halt k hk]
  exact validate_eq_pass (by unfold resolveReq; rw [hkey]; rfl) c ty

/-- C6 witness: the name `"o9-preview"` misses the sample table under all
six lookups, so capacity 3 passes for the global tier. -/
theorem validate_unknown_model_pass_witness :
    validate_ptu_capacity sampleTable "o9-preview" 3 "global" = .ok ⟨true, none⟩ :=
  validate_unknown_model_pass sampleTable "o9-preview" (by decide)
    (by decide) 3 "global"

/-- A table whose only model has a null `global_min`, exercising the
unguarded `capacity < None` comparison on the global bucket. -/
def nullGlobalTable : PtuTable :=
  [("m-null-global", { regional_min := some 15, regional_increment := 5,
                       global_min := none, global_increment := 5 })]

/-- A table whose only model has zero increments, exercising the
`(capacity - min) % 0` computation. -/
def zeroIncrementTable : PtuTable :=
  [("m-zero-inc", { regional_min := some 15, regional_increment := 0,
                    global_min := some 15, global_increment := 0 })]

/-- C9: for a matched model, `validate_ptu_capacity` returns a
`(bool, message)` pair (rather than raising) whenever the selected
bucket's minimum is non-null and the selected increment is nonzero; a
null minimum on a global-bucket call raises `TypeError` at the order
comparison against `None` (the null guard at azptu.py line 265 only
returns for the regional bucket); and with the minimum reached a zero
increment raises `ZeroDivisionError` at the modulo. -/
theorem validate_totality_guard :
    (∀ (t : PtuTable) (mn : String) (c : Int) (ty : String)
       (req : ModelRequirement) (m : Int),
       resolveReq t mn = some req →
       bucketMin req (isGlobalBucket ty) = some m →
       bucketIncrement req (isGlobalBucket ty) ≠ 0 →
       ∃ v : VResult, validate_ptu_capacity t mn c ty = .ok v) ∧
    (∀ (t : PtuTable) (mn : String) (c : Int) (ty : String)
       (req : ModelRequirement),
       resolveReq t mn = some req →
       isGlobalBucket ty = true →
       req.global_min = none →
       validate_ptu_capacity t mn c ty = .error .typeError) ∧
    (∀ (t : PtuTable) (mn : String) (c : Int) (ty : String)
       (req : ModelRequirement) (m : Int),
       resolveReq t mn = some req →
       bucketMin req (isGlobalBucket ty) = some m →
       bucketIncrement req (isGlobalBucket ty) = 0 →
       m ≤ c →
       validate_ptu_capacity t mn c ty = .error .zeroDivisionError) := by
  refine ⟨?_, ?_, ?_⟩
  · intro t mn c ty req m hres hbm hbi
    rw [validate_eq_matched hres, validateMatched_eq_some hbm]
    by_cases h1 : c < m
    · rw [if_pos h1]
      exact ⟨_, rfl⟩
    · rw [if_neg h1, if_neg hbi]
      by_cases h3 : (c - m) % bucketIncrement req (isGlobalBucket ty) ≠ 0
      · rw [if_pos h3]
        exact ⟨_, rfl⟩
      · rw [if_neg h3]
        exact ⟨_, rfl⟩
  · intro t mn c ty req hres hgb hmin
    have hbm : bucketMin req (isGlobalBucket ty) = none := by
      rw [bucketMin, hgb, if_pos rfl, hmin]
    rw [validate_eq_matched hres, validateMatched_eq_none hbm, if_pos hgb]
  · intro t mn c ty req m hres hbm hbi hc
    rw [validate_eq_matched hres, validateMatched_eq_some hbm]
    rw [if_neg (by omega), if_pos hbi]

/-- C9 witness: the three branches at concrete inputs — a normal
regional validation on the sample table; a global-bucket call for a model
with null `global_min`; and a zero-increment model at its minimum. -/
theorem validate_totality_guard_witness :
    (∃ v : VResult, validate_ptu_capacity sampleTable "gpt-4o" 10 "regional" = .ok v) ∧
    validate_ptu_capacity nullGlobalTable "m-null-global" 20 "global" = .error .typeError ∧
    validate_ptu_capacity zeroIncrementTable "m-zero-inc" 20 "regional" = .error .zeroDivisionError :=
  ⟨validate_totality_guard.1 sampleTable "gpt-4o" 10 "regional"
     { regional_min := some 15, regional_increment := 5,
       global_min := some 15, global_increment := 5 }
     15 (by decide) (by decide) (by decide),
   validate_totality_guard.2.1 nullGlobalTable "m-null-global" 20 "global"
     { regional_min := some 15, regional_increment := 5,
       global_min := none, global_increment := 5 }
     (by decide) (by decide) rfl,
   validate_totality_guard.2.2 zeroIncrementTable "m-zero-inc" 20 "regional"
     { regional_min := some 15, regional_increment := 0,
       global_min := some 15, global_increment := 0 }
     15 (by decide) (by decide) rfl (by decide)⟩

/-- The SDK `DeploymentModel` carried by a remote deployment record; every
field may be absent on the remote side. -/
structure SdkModel where
  format : Option String
  name : Option String
  version : Option String
deriving DecidableEq, Repr

/-- The SDK `Sku` of a remote deployment record. -/
structure SdkSku where
  name : String
  capacity : Int
deriving DecidableEq, Repr

/-- The SDK `DeploymentProperties`; the code guards
`deployment.properties and deployment.properties.model` before reading
model fields. -/
structure SdkProperties where
  model : Option SdkModel
  provisioning_state : Option String
deriving DecidableEq, Repr

/-- A remote deployment record as returned by the management client. -/
structure SdkDeployment where
  name : String
  properties : Option SdkProperties
  sku : Option SdkSku
deriving DecidableEq, Repr

/-- A call issued against the remote management boundary. -/
inductive RemoteCall
  | createOrUpdate (deployment_name sku_name : String) (capacity : Int)
      (model_format : Option String) (model_name model_version : String)
  | getDeployment (deployment_name : String)
deriving DecidableEq, Repr

/-- The outcome a remote call produces (submission and long-running
polling folded into one terminal outcome): success, an
`HttpResponseError` with a status code, or any other raised exception. -/
inductive RemoteOutcome
  | ok (result : SdkDeployment)
  | httpError (status_code : Nat) (message : String)
  | raised (message : String)
deriving DecidableEq, Repr

/-- The payload of the `ValueError`s the orchestrator raises locally:
either a capacity-validation message or the missing-model-identity
message of azptu.py line 432. -/
inductive ValueMsg
  | validationMsg (message : Option ErrMsg)
  | noModelInfo
deriving DecidableEq, Repr

/-- An error escaping an orchestrator operation. -/
inductive CliError
  | valueError (m : ValueMsg)
  | pyRaise (e : PyError)
  | authError (message : String)
  | httpError (status_code : Nat) (message : String)
  | raised (message : String)
deriving DecidableEq, Repr

/-- The `sku_name_map.get(deployment_type.lower(), 'ProvisionedManaged')`
lookup of azptu.py lines 342-347 and 440-445. -/
def sku_name_map (deployment_type : String) : String :=
  if pyLower deployment_type = "regional" then "ProvisionedManaged"
  else if pyLower deployment_type = "global" then "GlobalProvisionedManaged"
  else if pyLower deployment_type = "data-zone" then "DataZoneProvisionedManaged"
  else "ProvisionedManaged"

/-- Whether a remote call is a create-or-update submission (the only
remote mutation the orchestrator issues for create and update). -/
def isCreateOrUpdate : RemoteCall → Bool
  | .createOrUpdate _ _ _ _ _ _ => true
  | .getDeployment _ => false

/-- azptu.py lines 319-401: `DeploymentManager.create_ptu_deployment`.
`auth` models credential acquisition (`some msg` = authentication
failure); `remote` is the management-client oracle.  Returns the
operation outcome together with the trace of remote calls issued. -/
def create_ptu_deployment (t : PtuTable) (auth : Option String)
    (remote : RemoteCall → RemoteOutcome)
    (deployment_name model_name model_version : String) (capacity : Int)
    (deployment_type : String) :
    Except CliError SdkDeployment × List RemoteCall :=
  match validate_ptu_capacity t model_name capacity deployment_type with
  | .error e => (.error (.pyRaise e), [])
  | .ok v =>
    if v.ok then
      match auth with
      | some m => (.error (.authError m), [])
      | none =>
        let call := RemoteCall.createOrUpdate deployment_name
          (sku_name_map deployment_type) capacity (some "OpenAI")
          model_name model_version
        match remote call with
        | .ok result => (.ok result, [call])
        | .httpError s m => (.error (.httpError s m), [call])
        | .raised m => (.error (.raised m), [call])
    else
      (.error (.valueError (.validationMsg v.message)), [])

/-- azptu.py lines 428-432: the model identity extracted from the current
deployment; `none` when either field is missing or empty (Python
falsiness of `model_name` / `model_version`). -/
def modelIdentity (current : SdkDeployment) : Option (String × String) :=
  match ((current.properties.bind (fun p => p.model)).bind (fun m => m.name),
         (current.properties.bind (fun p => p.model)).bind (fun m => m.version)) with
  | (some mn, some mv) => if mn = "" ∨ mv = "" then none else some (mn, mv)
  | _ => none

/-- azptu.py line 455: the model format forwarded on update — the current
record's format when the model object exists (even when the format field
itself is null), else the literal `"OpenAI"`. -/
def currentFormat (current : SdkDeployment) : Option String :=
  match current.properties.bind (fun p => p.model) with
  | some m => m.format
  | none => some "OpenAI"

/-- azptu.py lines 403-498: `DeploymentManager.update_ptu_capacity`. -/
def update_ptu_capacity (t : PtuTable) (auth : Option String)
    (remote : RemoteCall → RemoteOutcome)
    (deployment_name : String) (new_capacity : Int) (deployment_type : String) :
    Except CliError SdkDeployment × List RemoteCall :=
  match auth with
  | some m => (.error (.authError m), [])
  | none =>
    match remote (.getDeployment deployment_name) with
    | .httpError s m => (.error (.httpError s m), [.getDeployment deployment_name])
    | .raised m => (.error (.raised m), [.getDeployment deployment_name])
    | .ok current =>
      match modelIdentity current with
      | none => (.error (.valueError .noModelInfo), [.getDeployment deployment_name])
      | some (mn, mv) =>
        match validate_ptu_capacity t mn new_capacity deployment_type with
        | .error e => (.error (.pyRaise e), [.getDeployment deployment_name])
        | .ok v =>
          if v.ok then
            let call := RemoteCall.createOrUpdate deployment_name
              (sku_name_map deployment_type) new_capacity (currentFormat current) mn mv
            match remote call with
            | .ok result => (.ok result, [.getDeployment deployment_name, call])
            | .httpError s m =>
              (.error (.httpError s m), [.getDeployment deployment_name, call])
            | .raised m =>
              (.error (.raised m), [.getDeployment deployment_name, call])
          else
            (.error (.valueError (.validationMsg v.message)),
             [.getDeployment deployment_name])

/-- The dictionary built by `get_deployment_info` (azptu.py lines
556-564); fields fall back to `'Unknown'` only when the guarding object
(`properties and model`, `sku`, `properties`) is absent. -/
structure DeploymentInfo where
  name : String
  model_name : Option String
  model_version : Option String
  model_format : Option String
  sku_name : String
  capacity : Int
  provisioning_state : Option String
deriving DecidableEq, Repr

/-- azptu.py lines 543-574: `DeploymentManager.get_deployment_info`.
A 404 from the remote get yields `none`; any other `HttpResponseError`
and any other exception re-raise. -/
def get_deployment_info (auth : Option String)
    (remote : RemoteCall → RemoteOutcome) (deployment_name : String) :
    Except CliError (Option DeploymentInfo) :=
  match auth with
  | some m => .error (.authError m)
  | none =>
    match remote (.getDeployment deployment_name) with
    | .ok d =>
      .ok (some
        { name := d.name
          model_name :=
            match d.properties.bind (fun p => p.model) with
            | some m => m.name
            | none => some "Unknown"
          model_version :=
            match d.properties.bind (fun p => p.model) with
            | some m => m.version
            | none => some "Unknown"
          model_format :=
            match d.properties.bind (fun p => p.model) with
            | some m => m.format
            | none => some "Unknown"
          sku_name :=
            match d.sku with
            | some s => s.name
            | none => "Unknown"
          capacity :=
            match d.sku with
            | some s => s.capacity
            | none => 0
          provisioning_state :=
            match d.properties with
            | some p => p.provisioning_state
            | none => some "Unknown" })
    | .httpError s m => if s = 404 then .ok none else .error (.httpError s m)
    | .raised m => .error (.raised m)

/-- A remote record for a deployment currently on the Global tier. -/
def globalDeployment : SdkDeployment :=
  { name := "dep1",
    properties := some
      { model := some { format := some "OpenAI", name := some "gpt-4o",
                        version := some "1" },
        provisioning_state := some "Succeeded" },
    sku := some { name := "GlobalProvisionedManaged", capacity := 15 } }

/-- A remote record carrying no model identity at all. -/
def noModelDeployment : SdkDeployment :=
  { name := "dep2", properties := none, sku := none }

/-- An oracle whose every call succeeds with `globalDeployment`. -/
def okRemote : RemoteCall → RemoteOutcome := fun _ => .ok globalDeployment

/-- An oracle whose every call succeeds with `noModelDeployment`. -/
def noModelRemote : RemoteCall → RemoteOutcome := fun _ => .ok noModelDeployment

/-- An oracle whose every call reports 404. -/
def notFoundRemote : RemoteCall → RemoteOutcome := fun _ => .httpError 404 "not found"

/-- An oracle whose every call reports a 500. -/
def serverErrorRemote : RemoteCall → RemoteOutcome := fun _ => .httpError 500 "boom"

/-- An oracle whose every call raises a transport-level exception. -/
def downRemote : RemoteCall → RemoteOutcome := fun _ => .raised "connection reset"

/-- C2: a create or update request whose capacity validation fails
returns the validation `ValueError` locally and issues no create-or-update
submission — create issues no remote call at all, update only the
initial read of the existing deployment. -/
theorem validation_failure_no_remote_mutation
    (t : PtuTable) (auth : Option String) (remote : RemoteCall → RemoteOutcome)
    (dn mn mv ty : String) (cap : Int) (msg : Option ErrMsg) (cur : SdkDeployment)
    (hval : validate_ptu_capacity t mn cap ty = .ok ⟨false, msg⟩) :
    create_ptu_deployment t auth remote dn mn mv cap ty =
      (.error (.valueError (.validationMsg msg)), []) ∧
    (∀ c ∈ (create_ptu_deployment t auth remote dn mn mv cap ty).2,
      isCreateOrUpdate c = false) ∧
    (remote (.getDeployment dn) = .ok cur → modelIdentity cur = some (mn, mv) →
      update_ptu_capacity t none remote dn cap ty =
        (.error (.valueError (.validationMsg msg)), [.getDeployment dn]) ∧
      ∀ c ∈ (update_ptu_capacity t none remote dn cap ty).2,
        isCreateOrUpdate c = false) := by
  have hcreate : create_ptu_deployment t auth remote dn mn mv cap ty =
      (.error (.valueError (.validationMsg msg)), []) := by
    unfold create_ptu_deployment
    rw [hval]
    rfl
  refine ⟨hcreate, ?_, ?_⟩
  · rw [hcreate]
    intro c hc
    cases hc
  · intro hget hid
    have hupd : update_ptu_capacity t none remote dn cap ty =
        (.error (.valueError (.validationMsg msg)), [.getDeployment dn]) := by
      unfold update_ptu_capacity
      simp only [hget, hid, hval]
      rfl
    refine ⟨hupd, ?_⟩
    rw [hupd]
    intro c hc
    have hceq : c = RemoteCall.getDeployment dn := List.mem_singleton.mp hc
    rw [hceq]
    rfl

/-- C2 witness: on the sample table, capacity 10 fails regional
validation for `gpt-4o`; the create returns the validation error with an
empty remote trace, and the update (against a remote record whose model
is `gpt-4o` v1) returns it after only the initial read. -/
theorem validation_failure_no_remote_mutation_witness :
    create_ptu_deployment sampleTable none okRemote "dep1" "gpt-4o" "1" 10 "regional" =
      (.error (.valueError (.validationMsg
        (some (.minCapacityError "gpt-4o" "Regional" 15 10)))), []) ∧
    (∀ c ∈ (create_ptu_deployment sampleTable none okRemote "dep1" "gpt-4o" "1" 10 "regional").2,
      isCreateOrUpdate c = false) ∧
    (okRemote (.getDeployment "dep1") = .ok globalDeployment →
      modelIdentity globalDeployment = some ("gpt-4o", "1") →
      update_ptu_capacity sampleTable none okRemote "dep1" 10 "regional" =
        (.error (.valueError (.validationMsg
          (some (.minCapacityError "gpt-4o" "Regional" 15 10)))), [.getDeployment "dep1"]) ∧
      ∀ c ∈ (update_ptu_capacity sampleTable none okRemote "dep1" 10 "regional").2,
        isCreateOrUpdate c = false) :=
  validation_failure_no_remote_mutation sampleTable none okRemote
    "dep1" "gpt-4o" "1" "regional" 10
    (some (.minCapacityError "gpt-4o" "Regional" 15 10)) globalDeployment (by decide)

/-- C7: a get-info whose remote fetch reports 404 returns `None` rather
than raising; any other `HttpResponseError` status and any other raised
exception propagate to the caller. -/
theorem get_info_not_found_none (remote : RemoteCall → RemoteOutcome)
    (dn m : String) (s : Nat) :
    (remote (.getDeployment dn) = .httpError 404 m →
      get_deployment_info none remote dn = .ok none) ∧
    (remote (.getDeployment dn) = .httpError s m → s ≠ 404 →
      get_deployment_info none remote dn = .error (.httpError s m)) ∧
    (remote (.getDeployment dn) = .raised m →
      get_deployment_info none remote dn = .error (.raised m)) := by
  refine ⟨?_, ?_, ?_⟩
  · intro hget
    unfold get_deployment_info
    simp [hget]
  · intro hget hs
    unfold get_deployment_info
    simp only [hget]
    rw [if_neg hs]
  · intro hget
    unfold get_deployment_info
    simp only [hget]

/-- C7 witness: the three remote-failure shapes at the concrete name
`"dep1"`. -/
theorem get_info_not_found_none_witness :
    get_deployment_info none notFoundRemote "dep1" = .ok none ∧
    get_deployment_info none serverErrorRemote "dep1" = .error (.httpError 500 "boom") ∧
    get_deployment_info none downRemote "dep1" = .error (.raised "connection reset") :=
  ⟨(get_info_not_found_none notFoundRemote "dep1" "not found" 404).1 rfl,
   (get_info_not_found_none serverErrorRemote "dep1" "boom" 500).2.1 rfl (by decide),
   (get_info_not_found_none downRemote "dep1" "connection reset" 404).2.2 rfl⟩

/-- C10: the create SKU is chosen by exact lowercase lookup among
regional/global/data-zone with fallback `ProvisionedManaged` for every
other string; in particular `"datazone"` — an alias the validator buckets
as global — falls through to the Regional SKU, so a create that passes
global-bucket validation for `"datazone"` submits `ProvisionedManaged`. -/
theorem sku_map_datazone_mismatch :
    (sku_name_map "regional" = "ProvisionedManaged" ∧
     sku_name_map "global" = "GlobalProvisionedManaged" ∧
     sku_name_map "data-zone" = "DataZoneProvisionedManaged") ∧
    (∀ s : String, pyLower s ≠ "regional" → pyLower s ≠ "global" →
      pyLower s ≠ "data-zone" → sku_name_map s = "ProvisionedManaged") ∧
    (sku_name_map "datazone" = "ProvisionedManaged" ∧
     isGlobalBucket "datazone" = true) ∧
    (∀ (t : PtuTable) (remote : RemoteCall → RemoteOutcome)
       (dn mn mv : String) (cap : Int),
       validate_ptu_capacity t mn cap "datazone" = .ok ⟨true, none⟩ →
       (create_ptu_deployment t none remote dn mn mv cap "datazone").2 =
         [.createOrUpdate dn "ProvisionedManaged" cap (some "OpenAI") mn mv]) := by
  refine ⟨⟨by decide, by decide, by decide⟩, ?_, ⟨by decide, by decide⟩, ?_⟩
  · intro s h1 h2 h3
    unfold sku_name_map
    rw [if_neg h1, if_neg h2, if_neg h3]
  · intro t remote dn mn mv cap hval
    have hsku : sku_name_map "datazone" = "ProvisionedManaged" := by decide
    unfold create_ptu_deployment
    rw [hval, hsku]
    cases hrem : remote (.createOrUpdate dn "ProvisionedManaged" cap (some "OpenAI") mn mv) <;>
      simp [hrem]

/-- C10 witness: an arbitrary unmapped type string falls back to the
Regional SKU, and a concrete valid create for `"datazone"` submits the
Regional SKU `ProvisionedManaged`. -/
theorem sku_map_datazone_mismatch_witness :
    sku_name_map "Weird-Type" = "ProvisionedManaged" ∧
    (create_ptu_deployment sampleTable none okRemote "dep1" "gpt-4o" "1" 15 "datazone").2 =
      [.createOrUpdate "dep1" "ProvisionedManaged" 15 (some "OpenAI") "gpt-4o" "1"] :=
  ⟨sku_map_datazone_mismatch.2.1 "Weird-Type" (by decide) (by decide) (by decide),
   sku_map_datazone_mismatch.2.2.2 sampleTable okRemote "dep1" "gpt-4o" "1" 15 (by decide)⟩

/-- C4 (amended): every update-capacity request first fetches the
existing deployment by name; a remote record with no model identity
yields the `ValueError` locally; otherwise the new capacity is validated
against the fetched deployment's model and the tier parameter supplied
with the update request, and only a passing validation leads to the
resubmission, which preserves the fetched model identity. -/
theorem update_fetch_validate_resubmit (t : PtuTable)
    (remote : RemoteCall → RemoteOutcome) (dn ty : String) (cap : Int)
    (cur : SdkDeployment) (mn mv : String) (v : VResult) :
    (update_ptu_capacity t none remote dn cap ty).2.head? =
      some (.getDeployment dn) ∧
    (remote (.getDeployment dn) = .ok cur → modelIdentity cur = none →
      update_ptu_capacity t none remote dn cap ty =
        (.error (.valueError .noModelInfo), [.getDeployment dn])) ∧
    (remote (.getDeployment dn) = .ok cur → modelIdentity cur = some (mn, mv) →
      validate_ptu_capacity t mn cap ty = .ok v →
      ((v.ok = false → update_ptu_capacity t none remote dn cap ty =
          (.error (.valueError (.validationMsg v.message)), [.getDeployment dn])) ∧
       (v.ok = true → (update_ptu_capacity t none remote dn cap ty).2 =
          [.getDeployment dn,
           .createOrUpdate dn (sku_name_map ty) cap (currentFormat cur) mn mv]))) := by
  refine ⟨?_, ?_, ?_⟩
  · unfold update_ptu_capacity
    cases hrem : remote (.getDeployment dn) with
    | ok current =>
      simp only [hrem]
      cases hid : modelIdentity current with
      | none => rfl
      | some p =>
        obtain ⟨mn1, mv1⟩ := p
        simp only [hid]
        cases hv : validate_ptu_capacity t mn1 cap ty with
        | error e => rfl
        | ok v1 =>
          simp only [hv]
          by_cases hok : v1.ok = true
          · simp only [if_pos hok]
            cases hrem2 : remote (.createOrUpdate dn (sku_name_map ty) cap
                (currentFormat current) mn1 mv1) <;> simp [hrem2]
          · simp only [if_neg hok]
            rfl
    | httpError s m =>
      simp only [hrem]
      rfl
    | raised m =>
      simp only [hrem]
      rfl
  · intro hget hid
    unfold update_ptu_capacity
    simp only [hget, hid]
  · intro hget hid hval
    constructor
    · intro hok
      unfold update_ptu_capacity
      simp only [hget, hid, hval, hok]
      rfl
    · intro hok
      unfold update_ptu_capacity
      simp only [hget, hid, hval, hok, if_pos]
      cases hrem2 : remote (.createOrUpdate dn (sku_name_map ty) cap
          (currentFormat cur) mn mv) <;> simp [hrem2]

/-- Modelled from the spec: `config.json` and the spec's §4.4/§2 mapping
`Regional→ProvisionedManaged`, `Global→GlobalProvisionedManaged`,
`DataZone→DataZoneProvisionedManaged` determine a deployment's *current
tier* as the tier whose SKU identifier its record carries. -/
def spec_current_tier (sku_name : String) : String :=
  if sku_name = "GlobalProvisionedManaged" then "global"
  else if sku_name = "DataZoneProvisionedManaged" then "data-zone"
  else "regional"

/-- A table on which the regional and global buckets disagree:
regional minimum 50 step 50, global minimum 15 step 5. -/
def splitTable : PtuTable :=
  [("gpt-4o", { regional_min := some 50, regional_increment := 50,
                global_min := some 15, global_increment := 5 })]

/-- An oracle serving `globalDeployment` (a Global-tier record). -/
def splitRemote : RemoteCall → RemoteOutcome := fun _ => .ok globalDeployment

/-- C4 counterexample: the fetched deployment `dep1` is on the Global
tier (its SKU is `GlobalProvisionedManaged`) and capacity 20 is valid for
that tier, yet `update_ptu_capacity` called with the request tier
`"regional"` (the CLI default) validates the regional bucket and rejects
— the code validates against the request's `deployment_type` argument
(azptu.py line 435), not the fetched deployment's current tier. -/
theorem update_fetch_validate_resubmit_cex :
    (globalDeployment.sku.map (fun s => s.name)) = some "GlobalProvisionedManaged" ∧
    spec_current_tier "GlobalProvisionedManaged" = "global" ∧
    validate_ptu_capacity splitTable "gpt-4o" 20 "global" = .ok ⟨true, none⟩ ∧
    update_ptu_capacity splitTable none splitRemote "dep1" 20 "regional" =
      (.error (.valueError (.validationMsg
        (some (.minCapacityError "gpt-4o" "Regional" 50 20)))), [.getDeployment "dep1"]) := by
  refine ⟨by decide, by decide, by decide, by decide⟩

/-- C4 witness: the amended theorem at concrete inputs — the fetch-first
trace and no-model-identity failure under `noModelRemote`, and the
validate-then-resubmit behavior under `okRemote` on the sample table. -/
theorem update_fetch_validate_resubmit_witness :
    (update_ptu_capacity sampleTable none noModelRemote "dep2" 15 "regional").2.head? =
      some (.getDeployment "dep2") ∧
    (noModelRemote (.getDeployment "dep2") = .ok noModelDeployment →
      modelIdentity noModelDeployment = none →
      update_ptu_capacity sampleTable none noModelRemote "dep2" 15 "regional" =
        (.error (.valueError .noModelInfo), [.getDeployment "dep2"])) ∧
    (okRemote (.getDeployment "dep1") = .ok globalDeployment →
      modelIdentity globalDeployment = some ("gpt-4o", "1") →
      validate_ptu_capacity sampleTable "gpt-4o" 15 "regional" = .ok ⟨true, none⟩ →
      (((true : Bool) = false →
          update_ptu_capacity sampleTable none okRemote "dep1" 15 "regional" =
            (.error (.valueError (.validationMsg none)), [.getDeployment "dep1"])) ∧
       ((true : Bool) = true →
          (update_ptu_capacity sampleTable none okRemote "dep1" 15 "regional").2 =
            [.getDeployment "dep1",
             .createOrUpdate "dep1" (sku_name_map "regional") 15
               (currentFormat globalDeployment) "gpt-4o" "1"]))) :=
  ⟨(update_fetch_validate_resubmit sampleTable noModelRemote "dep2" "regional" 15
      noModelDeployment "x" "y" ⟨true, none⟩).1,
   (update_fetch_validate_resubmit sampleTable noModelRemote "dep2" "regional" 15
      noModelDeployment "x" "y" ⟨true, none⟩).2.1,
   (update_fetch_validate_resubmit sampleTable okRemote "dep1" "regional" 15
      globalDeployment "gpt-4o" "1" ⟨true, none⟩).2.2⟩

/-- A JSON-like value stored in the session state. -/
inductive JVal
  | jnull
  | jstr (s : String)
  | jlist (xs : List JVal)
  | jobj (fields : List (String × JVal))

/-- The `state` dictionary of the session blob. -/
abbrev StateMap := List (String × JVal)

/-- What the backing `.cli_state` file holds: absent, unparsable JSON, a
parsed object missing the `timestamp` key, or a well-formed blob
`{timestamp, state}`. -/
inductive FileContent
  | absent
  | malformed
  | noTimestamp (state : StateMap)
  | blob (timestamp : Int) (state : StateMap)

/-- The observable state of a `StateManager`: the backing file plus the
in-memory `self.state` dictionary. -/
structure SMState where
  file : FileContent
  state : StateMap

namespace StateManager

/-- `expiration_minutes=5` of `StateManager.__init__` (azptu.py line 89),
in seconds. -/
def default_expiration_seconds : Int := 5 * 60

/-- Python dict assignment `self.state[key] = value`, preserving
insertion order. -/
def mapSet : StateMap → String → JVal → StateMap
  | [], k, v => [(k, v)]
  | (k1, v1) :: rest, k, v =>
    if k1 = k then (k1, v) :: rest else (k1, v1) :: mapSet rest k v

/-- `self.state.get(key, default)` with `default=None` as `none`. -/
def mapGet (m : StateMap) (k : String) : Option JVal := List.lookup k m

/-- azptu.py lines 122-132: `_save_state` writes
`{timestamp: time.time(), state: self.state}` to the file. -/
def save_state (now : Int) (sm : SMState) : SMState :=
  { file := .blob now sm.state, state := sm.state }

/-- azptu.py lines 134-141: `_clear_state` empties the in-memory state
and removes the file. -/
def clear_state : SMState := { file := .absent, state := [] }

/-- azptu.py lines 95-120: `_load_state` against the backing file at
clock reading `now`: fresh blobs are loaded and immediately re-persisted
with a refreshed timestamp; stale or timestamp-less blobs are cleared;
unparsable files leave the in-memory state empty without deletion. -/
def load_state (expiration_seconds now : Int) (file : FileContent) : SMState :=
  match file with
  | .absent => { file := .absent, state := [] }
  | .malformed => { file := .malformed, state := [] }
  | .noTimestamp _ => clear_state
  | .blob timestamp s =>
    if now - timestamp < expiration_seconds then
      save_state now { file := .blob timestamp s, state := s }
    else
      clear_state

/-- azptu.py lines 147-150: `set` mutates the dictionary then persists
the full blob. -/
def set (now : Int) (k : String) (v : JVal) (sm : SMState) : SMState :=
  save_state now { file := sm.file, state := mapSet sm.state k v }

/-- azptu.py lines 143-145: `get`. -/
def get (sm : SMState) (k : String) : Option JVal := mapGet sm.state k

/-- Python `None`-or-value for the optional project endpoint. -/
def optStr : Option String → JVal
  | some s => .jstr s
  | none => .jnull

/-- azptu.py lines 166-173: `set_current_project` stores
`{name, endpoint, set_at}` under `current_project`.  `now_iso` is the
`datetime.now().isoformat()` reading. -/
def set_current_project (now : Int) (now_iso : String) (project_name : String)
    (project_endpoint : Option String) (sm : SMState) : SMState :=
  set now "current_project"
    (.jobj [("name", .jstr project_name),
            ("endpoint", optStr project_endpoint),
            ("set_at", .jstr now_iso)]) sm

/-- azptu.py lines 179-181: `set_projects_cache` stores the raw list. -/
def set_projects_cache (now : Int) (projects : List JVal) (sm : SMState) : SMState :=
  set now "projects_cache" (.jlist projects) sm

/-- azptu.py lines 188-194: `set_resource_group` stores `{name, set_at}`. -/
def set_resource_group (now : Int) (now_iso : String) (resource_group : String)
    (sm : SMState) : SMState :=
  set now "resource_group"
    (.jobj [("name", .jstr resource_group), ("set_at", .jstr now_iso)]) sm

/-- azptu.py lines 201-207: `set_subscription` stores `{id, set_at}`. -/
def set_subscription (now : Int) (now_iso : String) (subscription : String)
    (sm : SMState) : SMState :=
  set now "subscription"
    (.jobj [("id", .jstr subscription), ("set_at", .jstr now_iso)]) sm

end StateManager

theorem load_state_blob (w now ts : Int) (s : StateMap) :
    StateManager.load_state w now (.blob ts s) =
      if now - ts < w then { file := .blob now s, state := s }
      else { file := .absent, state := [] } := by
  show (if now - ts < w then
      StateManager.save_state now { file := .blob ts s, state := s }
    else StateManager.clear_state) = _
  split_ifs <;> rfl

/-- C3: with the default 300-second window, a blob persisted at `t0` and
loaded at `t0+299` yields the stored entries and re-persists the blob
with the timestamp refreshed to the load time; a further load 301 seconds
after that refreshed timestamp yields the empty state and the backing
file is gone. -/
theorem state_ttl_sliding_then_expired (t0 : Int) (entries : StateMap) :
    StateManager.default_expiration_seconds = 300 ∧
    (StateManager.load_state 300 (t0 + 299) (.blob t0 entries)).state = entries ∧
    (StateManager.load_state 300 (t0 + 299) (.blob t0 entries)).file =
      .blob (t0 + 299) entries ∧
    StateManager.load_state 300 ((t0 + 299) + 301)
        ((StateManager.load_state 300 (t0 + 299) (.blob t0 entries)).file) =
      { file := .absent, state := [] } := by
  have h1 : t0 + 299 - t0 < 300 := by omega
  have h2 : ¬ (t0 + 299 + 301 - (t0 + 299) < 300) := by omega
  have hload : StateManager.load_state 300 (t0 + 299) (.blob t0 entries) =
      { file := .blob (t0 + 299) entries, state := entries } := by
    rw [load_state_blob, if_pos h1]
  refine ⟨rfl, by rw [hload], by rw [hload], ?_⟩
  rw [hload]
  show StateManager.load_state 300 (t0 + 299 + 301) (.blob (t0 + 299) entries) = _
  rw [load_state_blob, if_neg h2]

/-- C8: every `set`-style mutation (generic `set` and the typed setters
built on it) re-persists the entire state dictionary to the backing file
as one blob stamped with the current time — so the whole blob carries a
single timestamp — and a load any time less than the window after the
mutation still sees the mutated state (the expiration window slides). -/
theorem set_persists_whole_blob_fresh_timestamp
    (now d : Int) (iso pn rg sub : String) (ep : Option String)
    (projects : List JVal) (k : String) (v : JVal) (sm : SMState)
    (hd : d < 300) :
    (StateManager.set now k v sm).file =
      .blob now ((StateManager.set now k v sm).state) ∧
    (StateManager.set now k v sm).state = StateManager.mapSet sm.state k v ∧
    (StateManager.set_current_project now iso pn ep sm).file =
      .blob now ((StateManager.set_current_project now iso pn ep sm).state) ∧
    (StateManager.set_projects_cache now projects sm).file =
      .blob now ((StateManager.set_projects_cache now projects sm).state) ∧
    (StateManager.set_resource_group now iso rg sm).file =
      .blob now ((StateManager.set_resource_group now iso rg sm).state) ∧
    (StateManager.set_subscription now iso sub sm).file =
      .blob now ((StateManager.set_subscription now iso sub sm).state) ∧
    (StateManager.load_state 300 (now + d) ((StateManager.set now k v sm).file)).state =
      (StateManager.set now k v sm).state := by
  refine ⟨rfl, rfl, rfl, rfl, rfl, rfl, ?_⟩
  have h1 : now + d - now < 300 := by omega
  show (StateManager.load_state 300 (now + d)
    (.blob now (StateManager.mapSet sm.state k v))).state = _
  rw [load_state_blob, if_pos h1]
  rfl

/-- C8 witness: the theorem at a concrete mutation (`set "resource_group"`
at time 1000, re-read 100 seconds later on an initially empty store). -/
theorem set_persists_whole_blob_fresh_timestamp_witness :
    (StateManager.set 1000 "k" (.jstr "v") ⟨.absent, []⟩).file =
      .blob 1000 ((StateManager.set 1000 "k" (.jstr "v") ⟨.absent, []⟩).state) ∧
    (StateManager.set 1000 "k" (.jstr "v") ⟨.absent, []⟩).state =
      StateManager.mapSet [] "k" (.jstr "v") ∧
    (StateManager.set_current_project 1000 "iso" "proj" none ⟨.absent, []⟩).file =
      .blob 1000 ((StateManager.set_current_project 1000 "iso" "proj" none ⟨.absent, []⟩).state) ∧
    (StateManager.set_projects_cache 1000 [] ⟨.absent, []⟩).file =
      .blob 1000 ((StateManager.set_projects_cache 1000 [] ⟨.absent, []⟩).state) ∧
    (StateManager.set_resource_group 1000 "iso" "rg" ⟨.absent, []⟩).file =
      .blob 1000 ((StateManager.set_resource_group 1000 "iso" "rg" ⟨.absent, []⟩).state) ∧
    (StateManager.set_subscription 1000 "iso" "sub" ⟨.absent, []⟩).file =
      .blob 1000 ((StateManager.set_subscription 1000 "iso" "sub" ⟨.absent, []⟩).state) ∧
    (StateManager.load_state 300 (1000 + 100)
        ((StateManager.set 1000 "k" (.jstr "v") ⟨.absent, []⟩).file)).state =
      (StateManager.set 1000 "k" (.jstr "v") ⟨.absent, []⟩).state :=
  set_persists_whole_blob_fresh_timestamp 1000 100 "iso" "proj" "rg" "sub" none
    [] "k" (.jstr "v") ⟨.absent, []⟩ (by omega)

end Azptu
